import Mathlib

/-!
Verification development for the ScoutBot upload-queue subsystem.

Shallow embedding of:
  - app/utils/file_security.py (extension blocklist and archive whitelist)
  - app/models/pentaract_upload.py (file code generation)
  - app/services/upload_queue_service.py (enqueue, worker, retry, cancel)
  - app/services/resource_monitor_service.py (throttle hysteresis)
  - app/services/pentaract_storage_service.py (client retry and backoff)

Modelling conventions: asyncio side effects (HTTP responses, token
refresh outcomes, randomness, timestamps) are passed as explicit
parameters; the database is a list of records and sessions are assumed
to succeed (the source logs and falls through on database errors, which
is an environment failure outside the scope of these claims); the local
filesystem is the list of paths currently present on disk; wall-clock
sleeps are recorded as data (lists of wait durations) rather than
performed. Timestamps, file sizes and mime types are omitted from the
record model because no claim mentions them.
-/

namespace ScoutBot

/-- DANGEROUS_EXTENSIONS from app/utils/file_security.py lines 13-26. -/
def DANGEROUS_EXTENSIONS : List String :=
  [ ".exe", ".msi", ".bat", ".cmd", ".com", ".scr", ".pif",
    ".sh", ".bash", ".zsh", ".fish", ".ps1", ".vbs", ".js", ".jse",
    ".sys", ".dll", ".drv",
    ".lnk", ".url",
    ".deb", ".rpm", ".pkg", ".dmg", ".app",
    ".jar", ".apk", ".ipa" ]

/-- SAFE_ARCHIVE_EXTENSIONS from app/utils/file_security.py lines 29-32. -/
def SAFE_ARCHIVE_EXTENSIONS : List String :=
  [ ".zip", ".7z", ".rar", ".tar", ".gz", ".bz2", ".xz",
    ".tar.gz", ".tar.bz2", ".tar.xz", ".tgz", ".tbz2" ]

/-- Python str.split with a one-character separator, on character lists:
splitting the empty text gives one empty piece, and every separator
occurrence opens a new piece. -/
def splitChar (sep : Char) : List Char → List (List Char)
  | [] => [[]]
  | c :: cs =>
    let r := splitChar sep cs
    if c == sep then [] :: r
    else
      match r with
      | [] => [[c]]
      | g :: gs => (c :: g) :: gs

/-- Python pathlib name: the last path component, with empty components and
single-dot components dropped during parsing. -/
def pathName (filename : String) : String :=
  String.mk (((splitChar '/' filename.toList).filter
    (fun s => !(s == ([] : List Char)) && !(s == ['.']))).getLastD [])

/-- Python pathlib suffix of the final component: the text from the last dot
onward, empty when the last dot is the first or the last character of the
name (mirrors the rfind bound 0 < i < len - 1). -/
def pathSuffix (filename : String) : String :=
  let name := (pathName filename).toList
  let parts := splitChar '.' name
  if parts.length ≤ 1 then ""
  else if parts.getLastD [] == ([] : List Char) then ""
  else if parts.length == 2 && parts.headD ['x'] == ([] : List Char) then ""
  else String.mk ('.' :: parts.getLastD [])

/-- Python pathlib suffixes of the final component: empty when the name ends
with a dot, otherwise a dot-prefixed list of the dot-separated pieces of the
name after its first piece (leading dots stripped first). -/
def pathSuffixes (filename : String) : List String :=
  let name := (pathName filename).toList
  if name.getLastD ' ' == '.' then []
  else ((splitChar '.' (name.dropWhile (fun c => c == '.'))).tail).map
    (fun s => String.mk ('.' :: s))

/-- ASCII lowercase of a string, as Python str.lower on the extension text
that occurs here (extensions are ASCII). -/
def strLower (s : String) : String :=
  String.mk (s.toList.map Char.toLower)

/-- is_dangerous_file from app/utils/file_security.py lines 35-58: with more
than one suffix every suffix is checked against the blocklist, then the
single final extension is checked. -/
def is_dangerous_file (filename : String) : Bool :=
  let ext := strLower (pathSuffix filename)
  let sfx := pathSuffixes filename
  if 1 < sfx.length then
    if sfx.any (fun s => DANGEROUS_EXTENSIONS.contains (strLower s)) then true
    else DANGEROUS_EXTENSIONS.contains ext
  else DANGEROUS_EXTENSIONS.contains ext

/-- is_safe_archive from app/utils/file_security.py lines 61-80: with at
least two suffixes the joined final two suffixes are checked against the
archive whitelist, then the single final extension is checked. -/
def is_safe_archive (filename : String) : Bool :=
  let ext := strLower (pathSuffix filename)
  let sfx := pathSuffixes filename
  if 2 ≤ sfx.length then
    if SAFE_ARCHIVE_EXTENSIONS.contains
        (strLower (String.join (sfx.drop (sfx.length - 2)))) then true
    else SAFE_ARCHIVE_EXTENSIONS.contains ext
  else SAFE_ARCHIVE_EXTENSIONS.contains ext

/-- validate_file_safety from app/utils/file_security.py lines 83-112: the
archive check runs first and short-circuits the dangerous check; the long
explanatory reason text of the source is abridged to a constant here. -/
def validate_file_safety (filename : String) : Bool × String :=
  if is_safe_archive filename then (true, "Archive file")
  else if is_dangerous_file filename then
    (false, "File type is not allowed for security reasons")
  else (true, "Safe file")

/-- The alphabet of generate_file_code: uppercase ASCII letters then digits. -/
def FILE_CODE_CHARS : List Char :=
  "ABCDEFGHIJKLMNOPQRSTUVWXYZ0123456789".toList

/-- generate_file_code from app/models/pentaract_upload.py lines 10-14: len
independent uniform choices from the 36-character alphabet; the random
choice is modelled by an arbitrary index stream reduced mod 36. -/
def generate_file_code (len : Nat) (draw : Nat → Nat) : String :=
  String.mk ((List.range len).map (fun i => FILE_CODE_CHARS.getD (draw i % 36) 'A'))

/-- The default max_attempts of UploadQueueService._generate_unique_code. -/
def MAX_CODE_ATTEMPTS : Nat := 10

/-- Database row of app/models/pentaract_upload.py (PentaractUpload); file
size, mime type and the timestamp columns are omitted because no claim
mentions them. -/
structure UploadRecord where
  id : String
  user_id : String
  file_code : String
  original_filename : String
  file_path : String
  remote_path : String
  status : String
  error_message : Option String
  retry_count : Nat
deriving DecidableEq, Repr

/-- In-memory queue item built in UploadQueueService.add_to_queue lines
122-133; the error key is absent at creation and set on failure, modelled
as an Option that starts out none. -/
structure UploadItem where
  id : String
  file_code : String
  file_path : String
  remote_path : String
  original_filename : String
  user_id : String
  folder : String
  status : String
  retry_count : Nat
  error : Option String
deriving DecidableEq, Repr

/-- Combined observable state of the upload-queue service: the database
rows, the in-memory FIFO queue, the set of local paths present on disk
(as a list), and the _current_uploads map (as an association list). -/
structure SysState where
  records : List UploadRecord
  queue : List UploadItem
  files : List String
  current : List (String × UploadItem)
deriving DecidableEq, Repr

/-- UploadQueueService._generate_unique_code lines 140-172, with the random
source explicit: rand gives, per call of generate_file_code, the index
stream of its draws. Up to fuel probe attempts are made against the
existing codes; when all collide the fallback appends the timestamp mod
1000 to a fresh draw. Database sessions are assumed to succeed (the source
returns an unchecked code when the uniqueness query itself errors). -/
def generateUniqueCodeGo (existing : List String) (rand : Nat → Nat → Nat)
    (timestamp : Nat) : Nat → Nat → String
  | attempt, 0 => generate_file_code 6 (rand attempt) ++ toString (timestamp % 1000)
  | attempt, fuel + 1 =>
    let code := generate_file_code 6 (rand attempt)
    if existing.contains code then
      generateUniqueCodeGo existing rand timestamp (attempt + 1) fuel
    else code

/-- Entry point of the uniqueness probe with the default ten attempts. -/
def generateUniqueCode (existing : List String) (rand : Nat → Nat → Nat)
    (timestamp : Nat) : String :=
  generateUniqueCodeGo existing rand timestamp 0 MAX_CODE_ATTEMPTS

/-- UploadQueueService.add_to_queue lines 58-138: validate the name, draw a
unique code, create the pending database record, push the in-memory item.
Returns the (upload_id, file_code, error_message) triple of the source and
the successor state. The uuid and the randomness are explicit inputs; the
database-error early return is not modelled (sessions succeed). -/
def addToQueue (st : SysState) (file_path user_id folder : String)
    (rand : Nat → Nat → Nat) (timestamp : Nat) (upload_id : String) :
    (Option String × Option String × Option String) × SysState :=
  let name := pathName file_path
  let v := validate_file_safety name
  if v.1 then
    let file_code := generateUniqueCode (st.records.map (fun r => r.file_code))
      rand timestamp
    let file_ext := pathSuffix file_path
    let remote_path := folder ++ "/" ++ file_code ++ file_ext
    let row : UploadRecord :=
      { id := upload_id, user_id := user_id, file_code := file_code,
        original_filename := name, file_path := file_path,
        remote_path := remote_path, status := "pending",
        error_message := none, retry_count := 0 }
    let item : UploadItem :=
      { id := upload_id, file_code := file_code, file_path := file_path,
        remote_path := remote_path, original_filename := name,
        user_id := user_id, folder := folder, status := "pending",
        retry_count := 0, error := none }
    ((some upload_id, some file_code, none),
      { st with records := st.records ++ [row], queue := st.queue ++ [item] })
  else ((none, none, some v.2), st)

/-- UploadQueueService._update_upload_record lines 315-349: set the status
of the matching row and overwrite its error message only when the new
message is truthy (neither absent nor empty). -/
def updateUploadRecord (records : List UploadRecord) (upload_id status : String)
    (error_message : Option String) : List UploadRecord :=
  records.map (fun r =>
    if r.id == upload_id then
      { r with
        status := status,
        error_message :=
          match error_message with
          | some m => if m == "" then r.error_message else some m
          | none => r.error_message }
    else r)

/-- Write through an association list key, replacing the value when the key
is present and appending otherwise (dict assignment). -/
def mapSet (m : List (String × UploadItem)) (k : String) (v : UploadItem) :
    List (String × UploadItem) :=
  if m.any (fun p => p.1 == k) then
    m.map (fun p => if p.1 == k then (k, v) else p)
  else m ++ [(k, v)]

/-- Association-list lookup (dict membership and read). -/
def mapGet (m : List (String × UploadItem)) (k : String) : Option UploadItem :=
  (m.find? (fun p => p.1 == k)).map (fun p => p.2)

/-- Association-list deletion (the del statement). -/
def mapErase (m : List (String × UploadItem)) (k : String) :
    List (String × UploadItem) :=
  m.filter (fun p => !(p.1 == k))

/-- Outcome of the remote upload call made inside _process_upload, covering
both a result dict without success and a raised exception, which the source
collapses into the same except branch. -/
inductive UploadOutcome where
  | ok
  | err (msg : String)
deriving DecidableEq, Repr

/-- What _process_upload did with its task: terminal success, re-enqueued
with the incremented retry count, or terminal failure. -/
inductive TaskResult where
  | completed
  | reenqueued (rc : Nat)
  | failedTerminal (msg : String)
deriving DecidableEq, Repr

/-- UploadQueueService._process_upload lines 195-313. The task enters the
_current_uploads map as uploading; a missing local file raises before the
transfer and joins the failure branch; on success the row is completed and
the file unlinked; on failure with retry_count below the maximum the task
is re-enqueued at the tail with the count incremented, otherwise the row is
failed and the file unlinked. The five-second grace period before the map
entry is dropped is modelled as an atomic removal at the end. -/
def processUpload (maxRetries : Nat) (task : UploadItem)
    (outcome : UploadOutcome) (st : SysState) : SysState × TaskResult :=
  let uploading := { task with status := "uploading" }
  let st1 := { st with current := mapSet st.current task.id uploading }
  let tryResult :=
    if st1.files.contains task.file_path then outcome
    else UploadOutcome.err "File not found"
  match tryResult with
  | UploadOutcome.ok =>
    let st2 :=
      { st1 with
        current := mapSet st1.current task.id { uploading with status := "completed" },
        records := updateUploadRecord st1.records task.id "completed" none,
        files := st1.files.filter (fun p => !(p == task.file_path)) }
    ({ st2 with current := mapErase st2.current task.id }, TaskResult.completed)
  | UploadOutcome.err msg =>
    let failedItem := { uploading with status := "failed", error := some msg }
    let st2 := { st1 with current := mapSet st1.current task.id failedItem }
    if task.retry_count < maxRetries then
      let retryItem := { task with retry_count := task.retry_count + 1 }
      let st3 := { st2 with queue := st2.queue ++ [retryItem] }
      ({ st3 with current := mapErase st3.current task.id },
        TaskResult.reenqueued (task.retry_count + 1))
    else
      let st3 :=
        { st2 with
          records := updateUploadRecord st2.records task.id "failed" (some msg),
          files := st2.files.filter (fun p => !(p == task.file_path)) }
      ({ st3 with current := mapErase st3.current task.id },
        TaskResult.failedTerminal msg)

/-- UploadQueueService.cancel_upload lines 366-390: succeeds only when the
id is tracked in _current_uploads; it marks the in-memory item cancelled
and writes the database row as failed with the message Cancelled by user. -/
def cancelUpload (st : SysState) (upload_id : String) : SysState × Bool :=
  match mapGet st.current upload_id with
  | some item =>
    ({ st with
        current := mapSet st.current upload_id { item with status := "cancelled" },
        records := updateUploadRecord st.records upload_id "failed"
          (some "Cancelled by user") }, true)
  | none => (st, false)

/-- One observed iteration of the worker loop _process_queue lines 174-193:
either the one-second dequeue wait timed out, a task was dequeued and
processed with some transfer outcome, the worker task was cancelled, or an
unexpected exception reached the outer except clause. -/
inductive QueueEvent where
  | timedOut
  | gotTask (outcome : UploadOutcome)
  | cancelledWorker
  | unexpectedError (msg : String)
deriving DecidableEq, Repr

/-- Whether the loop iterates again or terminates. -/
inductive LoopControl where
  | continueLoop
  | stopLoop
deriving DecidableEq, Repr

/-- The body of _process_queue as a step function: a timeout continues, a
dequeued task is processed by processUpload and the loop continues, the
cancellation of the worker breaks the loop, and any unexpected exception is
logged and the loop continues. No event propagates an exception. -/
def processQueueStep (maxRetries : Nat) (st : SysState) (ev : QueueEvent) :
    SysState × LoopControl :=
  match ev with
  | QueueEvent.timedOut => (st, LoopControl.continueLoop)
  | QueueEvent.cancelledWorker => (st, LoopControl.stopLoop)
  | QueueEvent.unexpectedError _ => (st, LoopControl.continueLoop)
  | QueueEvent.gotTask outcome =>
    match st.queue with
    | [] => (st, LoopControl.continueLoop)
    | t :: rest =>
      ((processUpload maxRetries t outcome { st with queue := rest }).1,
        LoopControl.continueLoop)

/-- One psutil sample: CPU percent and memory percent, modelled as exact
rationals (the source compares floats, with no arithmetic beyond the
comparisons). -/
structure ResourceSample where
  cpu : ℚ
  mem : ℚ
deriving DecidableEq

/-- State of ResourceMonitorService: last observed usage and the throttled
flag. -/
structure MonitorState where
  cpu : ℚ
  mem : ℚ
  throttled : Bool
deriving DecidableEq

/-- ResourceMonitorService._update_resource_usage lines 79-109: store the
sample, throttle when CPU or memory strictly exceeds its threshold, clear
the flag when neither does, and log (the returned Bool) exactly on the two
transition branches. -/
def updateResourceUsage (cpuThreshold memThreshold : ℚ) (s : ResourceSample)
    (st : MonitorState) : MonitorState × Bool :=
  let shouldThrottle := decide (cpuThreshold < s.cpu) || decide (memThreshold < s.mem)
  if shouldThrottle && !st.throttled then
    ({ cpu := s.cpu, mem := s.mem, throttled := true }, true)
  else if !shouldThrottle && st.throttled then
    ({ cpu := s.cpu, mem := s.mem, throttled := false }, true)
  else
    ({ cpu := s.cpu, mem := s.mem, throttled := st.throttled }, false)

/-- Run the monitor over a sequence of samples, collecting the throttled
flag after each step (the step relation of the periodic sampling loop). -/
def runMonitor (cpuThreshold memThreshold : ℚ) (st : MonitorState) :
    List ResourceSample → List Bool
  | [] => []
  | s :: rest =>
    let st1 := (updateResourceUsage cpuThreshold memThreshold s st).1
    st1.throttled :: runMonitor cpuThreshold memThreshold st1 rest

/-- HTTP status observed by one POST of _upload_file_once: 201, 401, or any
other status. -/
inductive HttpResp where
  | created
  | unauthorized
  | httpError (code : Nat)
deriving DecidableEq, Repr

/-- The success-or-error result dict returned by the client operations. -/
structure OnceResult where
  success : Bool
  error : Option String
deriving DecidableEq, Repr

/-- PentaractStorageService._upload_file_once lines 372-471 (the in-memory
branch; the streaming branch lines 473-557 has the same status handling).
The successive HTTP responses and the successive _refresh_token outcomes
are explicit inputs, consumed left to right; an exhausted response list
stands for a network exception, which the source catches and converts into
a failure result. Returns the result dict, the number of POST calls made
and the number of token refreshes performed. On 401 the source refreshes
and, when the refresh succeeds, recursively re-enters the whole call. -/
def uploadFileOnce : List HttpResp → List Bool → OnceResult × Nat × Nat
  | [], _ => ({ success := false, error := some "connection error" }, 1, 0)
  | HttpResp.created :: _, _ => ({ success := true, error := none }, 1, 0)
  | HttpResp.httpError _ :: _, _ =>
    ({ success := false, error := some "HTTP error" }, 1, 0)
  | HttpResp.unauthorized :: rest, refreshes =>
    match refreshes with
    | true :: rtail =>
      let r := uploadFileOnce rest rtail
      (r.1, r.2.1 + 1, r.2.2 + 1)
    | _ => ({ success := false, error := some "Authentication failed" }, 1, 1)

/-- Formalisation of the claim text for the auth retry, for comparison with
the source: one token refresh and one retry of the same call, after which
failure is surfaced rather than refreshed again. Not translated from the
source. -/
def uploadOnceClaimModel : List HttpResp → List Bool → OnceResult
  | [], _ => { success := false, error := some "connection error" }
  | HttpResp.created :: _, _ => { success := true, error := none }
  | HttpResp.httpError _ :: _, _ => { success := false, error := some "HTTP error" }
  | HttpResp.unauthorized :: rest, refreshes =>
    match refreshes with
    | true :: _ =>
      match rest with
      | HttpResp.created :: _ => { success := true, error := none }
      | _ => { success := false, error := some "Authentication failed" }
    | _ => { success := false, error := some "Authentication failed" }

/-- Outcome of one iteration body of the retry loop in upload_file lines
333-367: the single attempt succeeded, returned a failure result, timed
out, or raised some other exception. -/
inductive AttemptOutcome where
  | ok
  | failResult (e : String)
  | timedOut
  | raised (e : String)
deriving DecidableEq, Repr

/-- Result of upload_file: the success dict, or a raised
PentaractUploadError carrying a message. -/
inductive RetryResult where
  | success
  | uploadError (msg : String)
deriving DecidableEq, Repr

/-- The retry loop of PentaractStorageService.upload_file lines 331-370,
with fuel counting the remaining iterations of range(max_retries): on a
non-success outcome the loop sleeps 2 to the power attempt and retries,
except on the last attempt where it raises. Returns the result, the list
of backoff waits performed (in seconds) and the number of attempts made. -/
def uploadFileGo (out : Nat → AttemptOutcome) : Nat → Nat → RetryResult × List Nat × Nat
  | _, 0 => (RetryResult.uploadError "Upload failed for unknown reason", [], 0)
  | attempt, fuel + 1 =>
    match out attempt with
    | AttemptOutcome.ok => (RetryResult.success, [], 1)
    | AttemptOutcome.failResult e =>
      if fuel = 0 then (RetryResult.uploadError e, [], 1)
      else
        let r := uploadFileGo out (attempt + 1) fuel
        (r.1, (2 ^ attempt) :: r.2.1, r.2.2 + 1)
    | AttemptOutcome.timedOut =>
      if fuel = 0 then (RetryResult.uploadError "Upload timed out", [], 1)
      else
        let r := uploadFileGo out (attempt + 1) fuel
        (r.1, (2 ^ attempt) :: r.2.1, r.2.2 + 1)
    | AttemptOutcome.raised e =>
      if fuel = 0 then (RetryResult.uploadError e, [], 1)
      else
        let r := uploadFileGo out (attempt + 1) fuel
        (r.1, (2 ^ attempt) :: r.2.1, r.2.2 + 1)

/-- upload_file with max_retries from settings.pentaract_retry_attempts,
starting at attempt zero. -/
def upload_file (maxRetries : Nat) (out : Nat → AttemptOutcome) :
    RetryResult × List Nat × Nat :=
  uploadFileGo out 0 maxRetries

/-- Outcome of one iteration body of the retry loop in download_file lines
576-659: success, a 401 with the outcome of the triggered refresh, another
HTTP error, a timeout, or the service-unavailable exception. -/
inductive DownloadAttempt where
  | ok
  | auth (refreshOk : Bool)
  | httpErr (code : Nat)
  | timedOut
  | unavailable
deriving DecidableEq, Repr

/-- Recogniser for the 401 branch of a download attempt. -/
def isAuthAttempt : DownloadAttempt → Bool
  | DownloadAttempt.auth _ => true
  | _ => false

/-- The retry loop of PentaractStorageService.download_file lines 559-664.
A 401 with a successful refresh continues to the next attempt without a
backoff sleep; a failed refresh returns the auth failure dict; HTTP errors
and timeouts sleep 2 to the power attempt before retrying, except on the
last attempt; the unavailable exception on the last attempt propagates
(modelled as Except.error); an exhausted loop returns the failure dict of
lines 661-664. Returns the result, backoff waits, and attempts made. -/
def downloadFileGo (out : Nat → DownloadAttempt) :
    Nat → Nat → Except String OnceResult × List Nat × Nat
  | _, 0 =>
    (Except.ok { success := false, error := some "Download failed after max attempts" },
      [], 0)
  | attempt, fuel + 1 =>
    match out attempt with
    | DownloadAttempt.ok => (Except.ok { success := true, error := none }, [], 1)
    | DownloadAttempt.auth refreshOk =>
      if refreshOk then
        let r := downloadFileGo out (attempt + 1) fuel
        (r.1, r.2.1, r.2.2 + 1)
      else
        (Except.ok { success := false, error := some "Authentication failed" }, [], 1)
    | DownloadAttempt.httpErr _ =>
      if fuel = 0 then (Except.ok { success := false, error := some "HTTP error" }, [], 1)
      else
        let r := downloadFileGo out (attempt + 1) fuel
        (r.1, (2 ^ attempt) :: r.2.1, r.2.2 + 1)
    | DownloadAttempt.timedOut =>
      if fuel = 0 then
        (Except.ok { success := false, error := some "Download timed out" }, [], 1)
      else
        let r := downloadFileGo out (attempt + 1) fuel
        (r.1, (2 ^ attempt) :: r.2.1, r.2.2 + 1)
    | DownloadAttempt.unavailable =>
      if fuel = 0 then (Except.error "Pentaract service is not available", [], 1)
      else
        let r := downloadFileGo out (attempt + 1) fuel
        (r.1, (2 ^ attempt) :: r.2.1, r.2.2 + 1)

/-- download_file with max_retries from settings.pentaract_retry_attempts. -/
def download_file (maxRetries : Nat) (out : Nat → DownloadAttempt) :
    Except String OnceResult × List Nat × Nat :=
  downloadFileGo out 0 maxRetries

/-- Server response observed by one DELETE of delete_file: 204, 401 with
the outcome of the triggered refresh, another status, or a raised
exception. -/
inductive DeleteAttempt where
  | noContent
  | auth (refreshOk : Bool)
  | httpErr (code : Nat)
  | raised (e : String)
deriving DecidableEq, Repr

/-- PentaractStorageService.delete_file lines 709-753: a single DELETE with
no retry loop and no backoff; only a 401 whose refresh succeeds re-enters
the whole call. Returns the Bool result and the number of DELETE calls. -/
def delete_file : List DeleteAttempt → Bool × Nat
  | [] => (false, 1)
  | DeleteAttempt.noContent :: _ => (true, 1)
  | DeleteAttempt.auth refreshOk :: rest =>
    if refreshOk then
      let r := delete_file rest
      (r.1, r.2 + 1)
    else (false, 1)
  | DeleteAttempt.httpErr _ :: _ => (false, 1)
  | DeleteAttempt.raised _ :: _ => (false, 1)

/-- Formalisation of the claim text for delete, for comparison with the
source: delete wrapped in the retry policy with exponential backoff capped
at the configured maximum, each attempt consuming the next server
response. Not translated from the source. -/
def deleteClaimModelGo (resps : List DeleteAttempt) : Nat → Nat → Bool × List Nat
  | _, 0 => (false, [])
  | attempt, fuel + 1 =>
    match resps.getD attempt (DeleteAttempt.raised "no response") with
    | DeleteAttempt.noContent => (true, [])
    | _ =>
      if fuel = 0 then (false, [])
      else
        let r := deleteClaimModelGo resps (attempt + 1) fuel
        (r.1, (2 ^ attempt) :: r.2)

/-- Entry point of the claim-text delete model. -/
def deleteClaimModel (maxRetries : Nat) (resps : List DeleteAttempt) :
    Bool × List Nat :=
  deleteClaimModelGo resps 0 maxRetries

/-! Helper lemmas about the association-list operations. -/

theorem mapGet_cons_pos (p : String × UploadItem) (rest : List (String × UploadItem))
    (k : String) (hp : (p.1 == k) = true) :
    mapGet (p :: rest) k = some p.2 := by
  unfold mapGet List.find?
  rw [hp]
  rfl

theorem mapGet_cons_neg (p : String × UploadItem) (rest : List (String × UploadItem))
    (k : String) (hp : ¬ (p.1 == k) = true) :
    mapGet (p :: rest) k = mapGet rest k := by
  have hp2 : (p.1 == k) = false := by simpa using hp
  unfold mapGet
  conv_lhs => unfold List.find?
  rw [hp2]

theorem mapGet_isSome_eq_any (m : List (String × UploadItem)) (k : String) :
    (mapGet m k).isSome = m.any (fun p => p.1 == k) := by
  induction m with
  | nil => rfl
  | cons p rest ih =>
    by_cases hpk : (p.1 == k) = true
    · rw [mapGet_cons_pos _ _ _ hpk]
      simp [List.any_cons, hpk]
    · have hpk2 : (p.1 == k) = false := by simpa using hpk
      rw [mapGet_cons_neg _ _ _ hpk]
      simp [List.any_cons, hpk2, ih]

theorem mapGet_map_replace (m : List (String × UploadItem)) (k : String)
    (v : UploadItem) (h : m.any (fun p => p.1 == k) = true) :
    mapGet (m.map (fun p => if p.1 == k then (k, v) else p)) k = some v := by
  induction m with
  | nil => simp at h
  | cons p rest ih =>
    by_cases hpk : (p.1 == k) = true
    · have he : (if (p.1 == k) = true then (k, v) else p) = (k, v) := if_pos hpk
      rw [List.map_cons, he, mapGet_cons_pos]
      exact beq_self_eq_true k
    · have hpk2 : (p.1 == k) = false := by simpa using hpk
      have h2 : rest.any (fun p => p.1 == k) = true := by simpa [hpk2] using h
      have he : (if (p.1 == k) = true then (k, v) else p) = p := if_neg hpk
      rw [List.map_cons, he, mapGet_cons_neg _ _ _ hpk]
      exact ih h2

/-- C1: a task whose retry count is within the configured maximum never
leaves _process_upload with a count above it: a re-enqueue carries exactly
the incremented count, which still respects the bound, every queue entry
after the step is an old entry or respects the bound, and a terminal
transition to the failed status happens exactly when the count already
equals the configured maximum. -/
theorem claim_C1_retry_bound (maxRetries : Nat) (task : UploadItem)
    (outcome : UploadOutcome) (st : SysState)
    (hrc : task.retry_count ≤ maxRetries) :
    (match (processUpload maxRetries task outcome st).2 with
     | TaskResult.completed => True
     | TaskResult.reenqueued r => r = task.retry_count + 1 ∧ r ≤ maxRetries
     | TaskResult.failedTerminal _ => task.retry_count = maxRetries)
    ∧ ((processUpload maxRetries task outcome st).1.queue.all
        (fun t => st.queue.contains t || decide (t.retry_count ≤ maxRetries))
        = true) := by
  have hq : ∀ x ∈ st.queue, x ∈ st.queue ∨ x.retry_count ≤ maxRetries :=
    fun x hx => Or.inl hx
  by_cases hf : task.file_path ∈ st.files
  · cases outcome with
    | ok =>
      constructor
      · simp [processUpload, hf]
      · simp [processUpload, hf]
        exact hq
    | err m =>
      by_cases hr : task.retry_count < maxRetries
      · constructor
        · simp [processUpload, hf, hr]
          omega
        · simp [processUpload, hf, hr]
          exact ⟨hq, Or.inr (by omega)⟩
      · constructor
        · simp [processUpload, hf, hr]
          omega
        · simp [processUpload, hf, hr]
          exact hq
  · cases outcome with
    | ok =>
      by_cases hr : task.retry_count < maxRetries
      · constructor
        · simp [processUpload, hf, hr]
          omega
        · simp [processUpload, hf, hr]
          exact ⟨hq, Or.inr (by omega)⟩
      · constructor
        · simp [processUpload, hf, hr]
          omega
        · simp [processUpload, hf, hr]
          exact hq
    | err m =>
      by_cases hr : task.retry_count < maxRetries
      · constructor
        · simp [processUpload, hf, hr]
          omega
        · simp [processUpload, hf, hr]
          exact ⟨hq, Or.inr (by omega)⟩
      · constructor
        · simp [processUpload, hf, hr]
          omega
        · simp [processUpload, hf, hr]
          exact hq

/-- C1 witness: a concrete task with retry count three at the configured
maximum of three fails terminally with its count equal to the maximum. -/
theorem claim_C1_retry_bound_witness :
    (3 : Nat) ≤ 3
    ∧ ((match (processUpload 3
          ⟨"t1", "CODE01", "/tmp/f1", "storage/CODE01", "f1", "u1", "storage",
            "pending", 3, none⟩
          (UploadOutcome.err "remote error") ⟨[], [], ["/tmp/f1"], []⟩).2 with
       | TaskResult.completed => True
       | TaskResult.reenqueued r => r = 3 + 1 ∧ r ≤ 3
       | TaskResult.failedTerminal _ => (3 : Nat) = 3)
      ∧ ((processUpload 3
          ⟨"t1", "CODE01", "/tmp/f1", "storage/CODE01", "f1", "u1", "storage",
            "pending", 3, none⟩
          (UploadOutcome.err "remote error") ⟨[], [], ["/tmp/f1"], []⟩).1.queue.all
          (fun t => (([] : List UploadItem)).contains t
            || decide (t.retry_count ≤ 3)) = true)) :=
  ⟨by decide,
    claim_C1_retry_bound 3
      ⟨"t1", "CODE01", "/tmp/f1", "storage/CODE01", "f1", "u1", "storage",
        "pending", 3, none⟩
      (UploadOutcome.err "remote error") ⟨[], [], ["/tmp/f1"], []⟩ (by decide)⟩

/-- C2: the local source file is removed from disk exactly on the two
terminal outcomes of _process_upload, and the disk is untouched when the
task is re-enqueued for a later retry. -/
theorem claim_C2_terminal_file_deletion (maxRetries : Nat) (task : UploadItem)
    (outcome : UploadOutcome) (st : SysState) :
    match processUpload maxRetries task outcome st with
    | (st1, TaskResult.completed) =>
        st1.files = st.files.filter (fun p => !(p == task.file_path))
        ∧ ¬ task.file_path ∈ st1.files
    | (st1, TaskResult.failedTerminal _) =>
        st1.files = st.files.filter (fun p => !(p == task.file_path))
        ∧ ¬ task.file_path ∈ st1.files
    | (st1, TaskResult.reenqueued _) => st1.files = st.files := by
  have hmem : ∀ l : List String,
      ¬ task.file_path ∈ l.filter (fun p => !(p == task.file_path)) := by
    intro l hmem
    rw [List.mem_filter] at hmem
    simp at hmem
  by_cases hf : task.file_path ∈ st.files <;>
    cases outcome <;>
    by_cases hr : task.retry_count < maxRetries <;>
    simp [processUpload, hf, hr, hmem st.files]

/-- C3: after a sample, the throttled flag holds exactly when the sample
shows CPU or memory strictly above its threshold; hence the flag turns on
as soon as either exceeds, stays on until one later sample has both at or
below their thresholds, and the transition log line (the returned Bool) is
emitted exactly when the flag changes value. -/
theorem claim_C3_throttle_hysteresis (cpuT memT : ℚ) (s : ResourceSample)
    (st : MonitorState) :
    (updateResourceUsage cpuT memT s st).1.throttled
      = (decide (cpuT < s.cpu) || decide (memT < s.mem))
    ∧ (updateResourceUsage cpuT memT s st).2
      = ((decide (cpuT < s.cpu) || decide (memT < s.mem)) != st.throttled) := by
  cases h1 : decide (cpuT < s.cpu) <;> cases h2 : decide (memT < s.mem) <;>
    cases h3 : st.throttled <;> simp [updateResourceUsage, h1, h2, h3]

/-- C5: a filename that fails validate_file_safety makes add_to_queue
return the validation error with no ids, leaving the records, the queue
and the whole state unchanged; payload.exe is such a filename while
archive.zip passes validation and is accepted. -/
theorem claim_C5_unsafe_rejected (st : SysState) (fp uid folder : String)
    (rand : Nat → Nat → Nat) (ts : Nat) (upid : String)
    (h : (validate_file_safety (pathName fp)).1 = false) :
    addToQueue st fp uid folder rand ts upid
      = ((none, none, some (validate_file_safety (pathName fp)).2), st)
    ∧ (validate_file_safety "payload.exe").1 = false
    ∧ (validate_file_safety "archive.zip").1 = true
    ∧ (addToQueue ⟨[], [], [], []⟩ "archive.zip" "u1" "storage" (fun _ _ => 0) 0
        "id1").1.1 = some "id1" := by
  refine ⟨?_, by decide, by decide, by decide⟩
  unfold addToQueue
  simp [h]

/-- C5 witness: the rejection conclusion instantiated at payload.exe over
the empty state. -/
theorem claim_C5_unsafe_rejected_witness :
    (validate_file_safety (pathName "payload.exe")).1 = false
    ∧ (addToQueue ⟨[], [], [], []⟩ "payload.exe" "u1" "storage" (fun _ _ => 0) 0 "id1"
        = ((none, none, some (validate_file_safety (pathName "payload.exe")).2),
          ⟨[], [], [], []⟩)
      ∧ (validate_file_safety "payload.exe").1 = false
      ∧ (validate_file_safety "archive.zip").1 = true
      ∧ (addToQueue ⟨[], [], [], []⟩ "archive.zip" "u1" "storage" (fun _ _ => 0) 0
          "id1").1.1 = some "id1") :=
  ⟨by decide,
    claim_C5_unsafe_rejected ⟨[], [], [], []⟩ "payload.exe" "u1" "storage"
      (fun _ _ => 0) 0 "id1" (by decide)⟩

/-- C8: cancel_upload succeeds exactly when the id is tracked in the
in-memory map (whatever the current status of the tracked item, so in
particular from the pending and the uploading status), in which case the
tracked item is marked cancelled; an untracked id leaves the state
untouched; the queue and the disk are never touched. -/
theorem claim_C8_cancel (st : SysState) (uid : String) :
    ((cancelUpload st uid).2 = st.current.any (fun p => p.1 == uid))
    ∧ (match mapGet st.current uid with
       | some item => mapGet (cancelUpload st uid).1.current uid
           = some { item with status := "cancelled" }
       | none => (cancelUpload st uid).1 = st)
    ∧ (cancelUpload st uid).1.queue = st.queue
    ∧ (cancelUpload st uid).1.files = st.files := by
  cases hget : mapGet st.current uid with
  | none =>
    have hany : st.current.any (fun p => p.1 == uid) = false := by
      rw [← mapGet_isSome_eq_any, hget]; rfl
    simp [cancelUpload, hget, hany]
  | some item =>
    have hany : st.current.any (fun p => p.1 == uid) = true := by
      rw [← mapGet_isSome_eq_any, hget]; rfl
    refine ⟨by simp [cancelUpload, hget, hany], ?_, by simp [cancelUpload, hget],
      by simp [cancelUpload, hget]⟩
    simp only [cancelUpload, hget]
    unfold mapSet
    rw [hany]
    simp only [if_pos]
    exact mapGet_map_replace _ _ _ hany

/-- C9: the worker loop body terminates the loop exactly on the
cancellation event and continues on every other event, including an
unexpected exception; and every failing task is converted by
_process_upload into either a re-enqueue with the incremented count or a
terminal failure, never a propagated exception. -/
theorem claim_C9_loop_never_raises (maxRetries : Nat) (st st2 : SysState)
    (ev : QueueEvent) (task : UploadItem) (msg : String) :
    ((processQueueStep maxRetries st ev).2 = LoopControl.stopLoop
      ↔ ev = QueueEvent.cancelledWorker)
    ∧ ((processUpload maxRetries task (UploadOutcome.err msg) st2).2
        = TaskResult.reenqueued (task.retry_count + 1)
      ∨ ∃ m, (processUpload maxRetries task (UploadOutcome.err msg) st2).2
        = TaskResult.failedTerminal m) := by
  constructor
  · cases ev <;> simp [processQueueStep]
    case gotTask o => cases st.queue <;> simp
  · by_cases hf : task.file_path ∈ st2.files <;>
      by_cases hr : task.retry_count < maxRetries
    · left; simp [processUpload, hf, hr]
    · right; exact ⟨msg, by simp [processUpload, hf, hr]⟩
    · left; simp [processUpload, hf, hr]
    · right; exact ⟨"File not found", by simp [processUpload, hf, hr]⟩

/-- C10: whenever the final suffix, or the compound of the final two
suffixes, is a safe archive extension, validate_file_safety accepts the
filename because the archive check runs before the dangerous check; in
particular malware.exe.zip is dangerous by the double-extension rule yet
accepted as an archive. -/
theorem claim_C10_archive_first (fn1 fn2 : String)
    (h1 : SAFE_ARCHIVE_EXTENSIONS.contains (strLower (pathSuffix fn1)) = true)
    (h2 : 2 ≤ (pathSuffixes fn2).length)
    (h3 : SAFE_ARCHIVE_EXTENSIONS.contains
        (strLower (String.join ((pathSuffixes fn2).drop ((pathSuffixes fn2).length - 2))))
        = true) :
    (validate_file_safety fn1).1 = true
    ∧ (validate_file_safety fn2).1 = true
    ∧ is_dangerous_file "malware.exe.zip" = true
    ∧ validate_file_safety "malware.exe.zip" = (true, "Archive file") := by
  have h1m : strLower (pathSuffix fn1) ∈ SAFE_ARCHIVE_EXTENSIONS := by simpa using h1
  have h3m : strLower (String.join ((pathSuffixes fn2).drop ((pathSuffixes fn2).length - 2)))
      ∈ SAFE_ARCHIVE_EXTENSIONS := by simpa using h3
  have hsafe1 : is_safe_archive fn1 = true := by
    simp only [is_safe_archive]
    simp
    split <;> simp [h1m]
  have hsafe2 : is_safe_archive fn2 = true := by
    simp [is_safe_archive, h2]
    exact Or.inl h3m
  refine ⟨?_, ?_, by decide, by decide⟩
  · simp [validate_file_safety, hsafe1]
  · simp [validate_file_safety, hsafe2]

/-- C10 witness: the acceptance conclusion instantiated at the double
extension filename malware.exe.zip for both hypotheses. -/
theorem claim_C10_archive_first_witness :
    SAFE_ARCHIVE_EXTENSIONS.contains (strLower (pathSuffix "malware.exe.zip")) = true
    ∧ 2 ≤ (pathSuffixes "backup.tar.gz").length
    ∧ ((validate_file_safety "malware.exe.zip").1 = true
      ∧ (validate_file_safety "backup.tar.gz").1 = true
      ∧ is_dangerous_file "malware.exe.zip" = true
      ∧ validate_file_safety "malware.exe.zip" = (true, "Archive file")) :=
  ⟨by decide, by decide,
    claim_C10_archive_first "malware.exe.zip" "backup.tar.gz" (by decide)
      (by decide) (by decide)⟩

theorem generate_file_code_length (len : Nat) (draw : Nat → Nat) :
    (generate_file_code len draw).length = len := by
  simp [generate_file_code, String.length]

theorem generate_file_code_chars (len : Nat) (draw : Nat → Nat) :
    (generate_file_code len draw).toList.all
      (fun ch => FILE_CODE_CHARS.contains ch) = true := by
  have key : ∀ n, n < 36 → FILE_CODE_CHARS.getD n 'A' ∈ FILE_CODE_CHARS := by decide
  rw [List.all_eq_true]
  intro ch hch
  have hmem : ch ∈ (List.range len).map
      (fun i => FILE_CODE_CHARS.getD (draw i % 36) 'A') := by
    simpa [generate_file_code, String.toList] using hch
  obtain ⟨i, hi, hrfl⟩ := List.mem_map.mp hmem
  rw [← hrfl]
  have := key (draw i % 36) (Nat.mod_lt _ (by norm_num))
  simpa using this

theorem generateUniqueCode_spec (existing : List String) (rand : Nat → Nat → Nat)
    (ts : Nat) (i : Nat) (hi : i < MAX_CODE_ATTEMPTS)
    (hfree : existing.contains (generate_file_code 6 (rand i)) = false) :
    ∃ j, generateUniqueCode existing rand ts = generate_file_code 6 (rand j)
      ∧ existing.contains (generate_file_code 6 (rand j)) = false := by
  have main : ∀ fuel attempt, (∃ j, attempt ≤ j ∧ j < attempt + fuel ∧
      existing.contains (generate_file_code 6 (rand j)) = false) →
      ∃ j, generateUniqueCodeGo existing rand ts attempt fuel
          = generate_file_code 6 (rand j)
        ∧ existing.contains (generate_file_code 6 (rand j)) = false := by
    intro fuel
    induction fuel with
    | zero =>
      intro attempt h
      obtain ⟨j, h1, h2, _⟩ := h
      omega
    | succ n ih =>
      intro attempt h
      obtain ⟨j, hj1, hj2, hj3⟩ := h
      by_cases hc : existing.contains (generate_file_code 6 (rand attempt)) = true
      · have hcm : generate_file_code 6 (rand attempt) ∈ existing := by simpa using hc
        have hne : j ≠ attempt := by
          intro he
          subst he
          rw [hj3] at hc
          cases hc
        have hnext : ∃ j, attempt + 1 ≤ j ∧ j < (attempt + 1) + n ∧
            existing.contains (generate_file_code 6 (rand j)) = false :=
          ⟨j, by omega, by omega, hj3⟩
        have hrec := ih (attempt + 1) hnext
        simpa [generateUniqueCodeGo, hcm] using hrec
      · have hcm : generate_file_code 6 (rand attempt) ∉ existing := by simpa using hc
        have hc2 : existing.contains (generate_file_code 6 (rand attempt)) = false := by
          simpa using hc
        exact ⟨attempt, by simp [generateUniqueCodeGo, hcm], hc2⟩
  exact main MAX_CODE_ATTEMPTS 0
    ⟨i, by omega, by simpa [MAX_CODE_ATTEMPTS] using hi, hfree⟩

/-- C4: when some probe attempt within the bounded budget draws a code not
already present among the persistent records and the filename is safe,
add_to_queue uses a file code that is six characters long, drawn from the
uppercase alphanumeric alphabet and absent from the existing records, and
the accepted call returns that code with a new persistent row whose status
is pending. -/
theorem claim_C4_unique_code_pending (st : SysState) (fp uid folder : String)
    (rand : Nat → Nat → Nat) (ts : Nat) (upid : String) (i : Nat)
    (hi : i < MAX_CODE_ATTEMPTS)
    (hfree : (st.records.map (fun r => r.file_code)).contains
        (generate_file_code 6 (rand i)) = false)
    (hsafe : (validate_file_safety (pathName fp)).1 = true) :
    (generateUniqueCode (st.records.map (fun r => r.file_code)) rand ts).length = 6
    ∧ (st.records.map (fun r => r.file_code)).contains
        (generateUniqueCode (st.records.map (fun r => r.file_code)) rand ts) = false
    ∧ ((generateUniqueCode (st.records.map (fun r => r.file_code)) rand ts).toList.all
        (fun ch => FILE_CODE_CHARS.contains ch) = true)
    ∧ (addToQueue st fp uid folder rand ts upid).1
        = (some upid,
           some (generateUniqueCode (st.records.map (fun r => r.file_code)) rand ts),
           none)
    ∧ ((addToQueue st fp uid folder rand ts upid).2.records.map
        (fun r => (r.id, r.status)))
        = st.records.map (fun r => (r.id, r.status)) ++ [(upid, "pending")] := by
  obtain ⟨j, hj_eq, hj_free⟩ :=
    generateUniqueCode_spec (st.records.map (fun r => r.file_code)) rand ts i hi hfree
  refine ⟨?_, ?_, ?_, ?_, ?_⟩
  · rw [hj_eq]
    exact generate_file_code_length 6 _
  · rw [hj_eq]
    exact hj_free
  · rw [hj_eq]
    exact generate_file_code_chars 6 _
  · simp [addToQueue, hsafe]
  · simp [addToQueue, hsafe, List.map_append]
/-- C4 witness: the conclusion instantiated over the empty state with the
constant randomness that draws AAAAAA at the first probe attempt. -/
theorem claim_C4_unique_code_pending_witness :
    (0 : Nat) < MAX_CODE_ATTEMPTS
    ∧ (((⟨[], [], [], []⟩ : SysState).records.map (fun r => r.file_code)).contains
        (generate_file_code 6 ((fun _ _ => 0 : Nat → Nat → Nat) 0)) = false)
    ∧ ((validate_file_safety (pathName "archive.zip")).1 = true)
    ∧ ((generateUniqueCode ((⟨[], [], [], []⟩ : SysState).records.map
          (fun r => r.file_code)) (fun _ _ => 0 : Nat → Nat → Nat) 0).length = 6
      ∧ (((⟨[], [], [], []⟩ : SysState).records.map (fun r => r.file_code)).contains
          (generateUniqueCode ((⟨[], [], [], []⟩ : SysState).records.map
            (fun r => r.file_code)) (fun _ _ => 0 : Nat → Nat → Nat) 0) = false)
      ∧ ((generateUniqueCode ((⟨[], [], [], []⟩ : SysState).records.map
            (fun r => r.file_code)) (fun _ _ => 0 : Nat → Nat → Nat) 0).toList.all
          (fun ch => FILE_CODE_CHARS.contains ch) = true)
      ∧ (addToQueue ⟨[], [], [], []⟩ "archive.zip" "u1" "storage"
          (fun _ _ => 0 : Nat → Nat → Nat) 0 "id1").1
          = (some "id1",
             some (generateUniqueCode ((⟨[], [], [], []⟩ : SysState).records.map
               (fun r => r.file_code)) (fun _ _ => 0 : Nat → Nat → Nat) 0),
             none)
      ∧ ((addToQueue ⟨[], [], [], []⟩ "archive.zip" "u1" "storage"
            (fun _ _ => 0 : Nat → Nat → Nat) 0 "id1").2.records.map
          (fun r => (r.id, r.status)))
          = (⟨[], [], [], []⟩ : SysState).records.map (fun r => (r.id, r.status))
            ++ [("id1", "pending")]) :=
  ⟨by decide, by decide, by decide,
    claim_C4_unique_code_pending ⟨[], [], [], []⟩ "archive.zip" "u1" "storage"
      (fun _ _ => 0) 0 "id1" 0 (by decide) (by decide) (by decide)⟩

/-- C6 counterexample: two consecutive 401 responses with successful
refreshes make one client call perform two refresh-and-retry rounds and
three POST attempts, then succeed, refuting the claimed bound of exactly
one refresh-and-retry before surfacing failure; the formalisation of the
claim text returns an authentication failure on the same input. -/
theorem claim_C6_counterexample :
    (uploadFileOnce [HttpResp.unauthorized, HttpResp.unauthorized, HttpResp.created]
        [true, true]).2.2 = 2
    ∧ (uploadFileOnce [HttpResp.unauthorized, HttpResp.unauthorized, HttpResp.created]
        [true, true]).2.1 = 3
    ∧ (uploadFileOnce [HttpResp.unauthorized, HttpResp.unauthorized, HttpResp.created]
        [true, true]).1.success = true
    ∧ ¬((uploadFileOnce [HttpResp.unauthorized, HttpResp.unauthorized, HttpResp.created]
        [true, true]).2.2 ≤ 1)
    ∧ uploadOnceClaimModel [HttpResp.unauthorized, HttpResp.unauthorized, HttpResp.created]
        [true, true]
      = { success := false, error := some "Authentication failed" } := by decide

/-- C6 amended: on a 401 the client refreshes the token and re-enters the
same call, and it does so again for every further 401 while refreshes keep
succeeding, with no bound on the number of rounds; only when a refresh
fails does the attempt return the authentication failure result without
retrying further. -/
theorem claim_C6_auth_refresh_amended (n : Nat) (resps : List HttpResp)
    (rtail : List Bool) :
    uploadFileOnce (List.replicate n HttpResp.unauthorized ++ [HttpResp.created])
        (List.replicate n true)
      = ({ success := true, error := none }, n + 1, n)
    ∧ uploadFileOnce (HttpResp.unauthorized :: resps) (false :: rtail)
      = ({ success := false, error := some "Authentication failed" }, 1, 1) := by
  constructor
  · induction n with
    | zero => rfl
    | succ k ih => simp [List.replicate_succ, uploadFileOnce, ih]
  · rfl
theorem retryWaitsShape (attempt k c : Nat) (w : List Nat)
    (hc : c ≤ k) (hpos : 0 < k → 0 < c)
    (hw : w = (List.range (c - 1)).map (fun a => 2 ^ (attempt + 1 + a)))
    (hk : k ≠ 0) :
    (c + 1 ≤ k + 1)
    ∧ (0 < k + 1 → 0 < c + 1)
    ∧ (2 ^ attempt) :: w
      = (List.range ((c + 1) - 1)).map (fun a => 2 ^ (attempt + a)) := by
  refine ⟨by omega, by omega, ?_⟩
  subst hw
  have hcpos : 0 < c := hpos (by omega)
  obtain ⟨m, rfl⟩ : ∃ m, c = m + 1 := ⟨c - 1, by omega⟩
  simp only [Nat.add_sub_cancel]
  rw [List.range_succ_eq_map, List.map_cons, List.map_map]
  simp only [Nat.add_zero, List.cons.injEq, true_and]
  apply List.map_congr_left
  intro a ha
  simp only [Function.comp_apply, Nat.succ_eq_add_one]
  have h : attempt + 1 + a = attempt + (a + 1) := by omega
  rw [h]

theorem uploadFileGo_spec (out : Nat → AttemptOutcome) (fuel : Nat) : ∀ attempt,
    (uploadFileGo out attempt fuel).2.2 ≤ fuel
    ∧ (0 < fuel → 0 < (uploadFileGo out attempt fuel).2.2)
    ∧ (uploadFileGo out attempt fuel).2.1
      = (List.range ((uploadFileGo out attempt fuel).2.2 - 1)).map
          (fun a => 2 ^ (attempt + a)) := by
  induction fuel with
  | zero => intro attempt; simp [uploadFileGo]
  | succ k ih =>
    intro attempt
    cases hout : out attempt with
    | ok => simp [uploadFileGo, hout]
    | failResult e =>
      by_cases hk : k = 0
      · subst hk
        simp [uploadFileGo, hout]
      · obtain ⟨h1, h2, h3⟩ := ih (attempt + 1)
        obtain ⟨g1, g2, g3⟩ := retryWaitsShape attempt k _ _ h1 h2 h3 hk
        simp only [uploadFileGo, hout, hk, if_neg]
        exact ⟨g1, g2, g3⟩
    | timedOut =>
      by_cases hk : k = 0
      · subst hk
        simp [uploadFileGo, hout]
      · obtain ⟨h1, h2, h3⟩ := ih (attempt + 1)
        obtain ⟨g1, g2, g3⟩ := retryWaitsShape attempt k _ _ h1 h2 h3 hk
        simp only [uploadFileGo, hout, hk, if_neg]
        exact ⟨g1, g2, g3⟩
    | raised e =>
      by_cases hk : k = 0
      · subst hk
        simp [uploadFileGo, hout]
      · obtain ⟨h1, h2, h3⟩ := ih (attempt + 1)
        obtain ⟨g1, g2, g3⟩ := retryWaitsShape attempt k _ _ h1 h2 h3 hk
        simp only [uploadFileGo, hout, hk, if_neg]
        exact ⟨g1, g2, g3⟩

theorem downloadFileGo_spec (out : Nat → DownloadAttempt) (fuel : Nat) : ∀ attempt,
    (∀ j, attempt ≤ j → j < attempt + fuel → isAuthAttempt (out j) = false) →
    (downloadFileGo out attempt fuel).2.2 ≤ fuel
    ∧ (0 < fuel → 0 < (downloadFileGo out attempt fuel).2.2)
    ∧ (downloadFileGo out attempt fuel).2.1
      = (List.range ((downloadFileGo out attempt fuel).2.2 - 1)).map
          (fun a => 2 ^ (attempt + a)) := by
  induction fuel with
  | zero => intro attempt _; simp [downloadFileGo]
  | succ k ih =>
    intro attempt hna
    cases hout : out attempt with
    | ok => simp [downloadFileGo, hout]
    | auth rOk =>
      have hcontra := hna attempt (Nat.le_refl _) (by omega)
      rw [hout] at hcontra
      simp [isAuthAttempt] at hcontra
    | httpErr c =>
      by_cases hk : k = 0
      · subst hk
        simp [downloadFileGo, hout]
      · obtain ⟨h1, h2, h3⟩ := ih (attempt + 1)
          (fun j hj1 hj2 => hna j (by omega) (by omega))
        obtain ⟨g1, g2, g3⟩ := retryWaitsShape attempt k _ _ h1 h2 h3 hk
        simp only [downloadFileGo, hout, hk, if_neg]
        exact ⟨g1, g2, g3⟩
    | timedOut =>
      by_cases hk : k = 0
      · subst hk
        simp [downloadFileGo, hout]
      · obtain ⟨h1, h2, h3⟩ := ih (attempt + 1)
          (fun j hj1 hj2 => hna j (by omega) (by omega))
        obtain ⟨g1, g2, g3⟩ := retryWaitsShape attempt k _ _ h1 h2 h3 hk
        simp only [downloadFileGo, hout, hk, if_neg]
        exact ⟨g1, g2, g3⟩
    | unavailable =>
      by_cases hk : k = 0
      · subst hk
        simp [downloadFileGo, hout]
      · obtain ⟨h1, h2, h3⟩ := ih (attempt + 1)
          (fun j hj1 hj2 => hna j (by omega) (by omega))
        obtain ⟨g1, g2, g3⟩ := retryWaitsShape attempt k _ _ h1 h2 h3 hk
        simp only [downloadFileGo, hout, hk, if_neg]
        exact ⟨g1, g2, g3⟩

/-- C7 counterexample: a delete whose first attempt fails with a 500 is
not retried even though a second attempt would succeed and the configured
maximum allows it; the formalisation of the claim text retries after a one
second backoff and succeeds on the same input. -/
theorem claim_C7_counterexample :
    delete_file [DeleteAttempt.httpErr 500, DeleteAttempt.noContent] = (false, 1)
    ∧ deleteClaimModel 3 [DeleteAttempt.httpErr 500, DeleteAttempt.noContent]
      = (true, [1]) := by decide

/-- C7 amended: the upload and download operations are retried with
exponential backoff, waiting two to the power attempt seconds before retry
attempt plus one, capped at the configured maximum number of attempts
(download shown for attempt sequences without 401 responses, whose refresh
path continues without a backoff wait); the delete operation is not under
the retry policy: apart from the client-level 401 refresh re-entry, a
failed or successful first attempt ends the call with exactly one DELETE
request and no backoff. -/
theorem claim_C7_backoff_amended (maxRetries : Nat) (uOut : Nat → AttemptOutcome)
    (dOut : Nat → DownloadAttempt) (resps : List DeleteAttempt)
    (hnoauth : (List.range maxRetries).all (fun j => !(isAuthAttempt (dOut j))) = true) :
    (upload_file maxRetries uOut).2.2 ≤ maxRetries
    ∧ (upload_file maxRetries uOut).2.1
      = (List.range ((upload_file maxRetries uOut).2.2 - 1)).map (fun a => 2 ^ a)
    ∧ (download_file maxRetries dOut).2.2 ≤ maxRetries
    ∧ (download_file maxRetries dOut).2.1
      = (List.range ((download_file maxRetries dOut).2.2 - 1)).map (fun a => 2 ^ a)
    ∧ (match resps with
       | [] => True
       | DeleteAttempt.noContent :: _ => delete_file resps = (true, 1)
       | DeleteAttempt.auth _ :: _ => True
       | DeleteAttempt.httpErr _ :: _ => delete_file resps = (false, 1)
       | DeleteAttempt.raised _ :: _ => delete_file resps = (false, 1)) := by
  have hu := uploadFileGo_spec uOut maxRetries 0
  have hna : ∀ j, 0 ≤ j → j < 0 + maxRetries → isAuthAttempt (dOut j) = false := by
    intro j _ hj
    have := (List.all_eq_true.mp hnoauth) j (List.mem_range.mpr (by omega))
    simpa using this
  have hd := downloadFileGo_spec dOut maxRetries 0 hna
  refine ⟨hu.1, ?_, hd.1, ?_, ?_⟩
  · have h3 := hu.2.2
    simpa [upload_file] using h3
  · have h3 := hd.2.2
    simpa [download_file] using h3
  · cases resps with
    | nil => trivial
    | cons r rest => cases r <;> simp [delete_file]
/-- C7 witness: the conclusion instantiated with three configured
attempts, an upload that always fails, a download that always times out
and a delete whose first response is a 500. -/
theorem claim_C7_backoff_amended_witness :
    ((List.range 3).all
      (fun j => !(isAuthAttempt ((fun _ => DownloadAttempt.timedOut) j))) = true)
    ∧ ((upload_file 3 (fun _ => AttemptOutcome.failResult "remote error")).2.2 ≤ 3
      ∧ (upload_file 3 (fun _ => AttemptOutcome.failResult "remote error")).2.1
        = (List.range ((upload_file 3
            (fun _ => AttemptOutcome.failResult "remote error")).2.2 - 1)).map
            (fun a => 2 ^ a)
      ∧ (download_file 3 (fun _ => DownloadAttempt.timedOut)).2.2 ≤ 3
      ∧ (download_file 3 (fun _ => DownloadAttempt.timedOut)).2.1
        = (List.range ((download_file 3
            (fun _ => DownloadAttempt.timedOut)).2.2 - 1)).map (fun a => 2 ^ a)
      ∧ (match [DeleteAttempt.httpErr 500] with
         | [] => True
         | DeleteAttempt.noContent :: _ =>
             delete_file [DeleteAttempt.httpErr 500] = (true, 1)
         | DeleteAttempt.auth _ :: _ => True
         | DeleteAttempt.httpErr _ :: _ =>
             delete_file [DeleteAttempt.httpErr 500] = (false, 1)
         | DeleteAttempt.raised _ :: _ =>
             delete_file [DeleteAttempt.httpErr 500] = (false, 1))) :=
  ⟨by decide,
    claim_C7_backoff_amended 3 (fun _ => AttemptOutcome.failResult "remote error")
      (fun _ => DownloadAttempt.timedOut) [DeleteAttempt.httpErr 500] (by decide)⟩
end ScoutBot
